import Mathlib

/-!
Verification of the SpamCheckApp repository (user registration, profile
management, and the global contact directory sync hook), shallowly embedded
from the Python/Django source in `src/spamchecker/`.
-/

deriving instance DecidableEq for Except

namespace SpamCheck

/-- Models Python `str.isdigit` for strings of ASCII characters: true iff the
string is nonempty and every character is a decimal digit `'0'..'9'`.
(In Python the empty
string does not count as a digit string.) -/
def str_isdigit (s : String) : Bool :=
  !s.data.isEmpty && s.data.all Char.isDigit

/-- Method `UserSerializer.validate_phone_number` (src/spamchecker/Serializers/user.py):
raises a ValidationError "Phone number must be numeric." unless
`value.isdigit()`, else returns the value unchanged. -/
def validate_phone_number (value : String) : Except String String :=
  if !(str_isdigit value) then .error "Phone number must be numeric."
  else .ok value

/-- True iff `pat` occurs as a contiguous run inside the second list. -/
def containsChars (pat : List Char) : List Char → Bool
  | [] => pat.isEmpty
  | c :: rest => pat.isPrefixOf (c :: rest) || containsChars pat rest

/-- Python substring containment `pat in s`, on the character lists. -/
def str_contains (s pat : String) : Bool :=
  containsChars pat.data s.data

/-- Method `UserSerializer.validate_email`: raises the blocklist error if the
substring `"@example.com"` occurs anywhere in the value (a Python substring
test, not a domain comparison), else returns the value unchanged. -/
def validate_email (value : String) : Except String String :=
  if str_contains value "@example.com" then
    .error "Email addresses from example.com are not allowed."
  else .ok value

example : validate_phone_number "" = .error "Phone number must be numeric." := by rfl

example : validate_email "a@example.com.org" =
    .error "Email addresses from example.com are not allowed." := by rfl

example : validate_email "a@gmail.com" = .ok "a@gmail.com" := by rfl

/-- The `User` model (src/spamchecker/models.py).  `id` is the database
primary key; `date_joined` (auto_now_add) is kept as an uninterpreted string
taken from the request clock.  Optional columns (`blank=True, null=True`) are
`Option String`. -/
structure User where
  id : Nat
  salutation : Option String
  first_name : String
  last_name : String
  occupation : Option String
  phone_number : String
  country_code : String
  email : Option String
  password : String
  date_joined : String
deriving Repr, DecidableEq

/-- The `GlobalContact` model.  `user` is the nullable foreign key to `User`,
kept as the referenced primary key.  The `last_updated` auto timestamp is not
modelled (no claim mentions it). -/
structure GlobalContact where
  phone_number : String
  name : String
  country_code : String
  is_registered_user : Bool
  spam_count : Int
  total_reports : Int
  email : Option String
  user : Option Nat
deriving Repr, DecidableEq

/-- Method `GlobalContact.spam_likelihood`: `0` when `total_reports == 0`, else
`spam_count / total_reports` (Python true division, modelled in `ℚ`). -/
def GlobalContact.spam_likelihood (gc : GlobalContact) : ℚ :=
  if gc.total_reports = 0 then 0
  else (gc.spam_count : ℚ) / (gc.total_reports : ℚ)

/-- Row defaults of the `GlobalContact` model (`is_registered_user=False`,
`spam_count=0`, `total_reports=0`, nullable `email` and `user`), used by
`get_or_create` for columns absent from its `defaults` dict. -/
def GlobalContact.blank (phone : String) : GlobalContact :=
  { phone_number := phone
  , name := ""
  , country_code := ""
  , is_registered_user := false
  , spam_count := 0
  , total_reports := 0
  , email := none
  , user := none }

/-- The contact directory table, as the list of its rows.  The
`unique=True` constraint on `phone_number` means at most one row matches any
phone number. -/
abbrev Directory := List GlobalContact

/-- Hook `User.save` (src/spamchecker/models.py): after persisting the user row,
`GlobalContact.objects.get_or_create(phone_number=..., defaults={name,
is_registered_user, country_code, email})`; if the row already existed,
overwrite `name`, `is_registered_user`, `country_code`, `email` and `user`
on it and save.  Note the `defaults` dict of the create branch does NOT set
`user`, so a freshly created row keeps the model default `user=None`.
Returns the directory after the hook. -/
def User.save (u : User) (dir : Directory) : Directory :=
  match dir.find? (fun gc => gc.phone_number == u.phone_number) with
  | none =>
      dir ++ [{ GlobalContact.blank u.phone_number with
                name := u.first_name ++ " " ++ u.last_name
              , is_registered_user := true
              , country_code := u.country_code
              , email := u.email }]
  | some _ =>
      dir.map (fun gc =>
        if gc.phone_number == u.phone_number then
          { gc with
            name := u.first_name ++ " " ++ u.last_name
          , is_registered_user := true
          , country_code := u.country_code
          , email := u.email
          , user := some u.id }
        else gc)

/-- JSON values, as far as the endpoint responses need them. -/
inductive J where
  | str : String → J
  | num : Nat → J
  | jnull : J
  | obj : List (String × J) → J
deriving Repr

/-- An HTTP response: status code and JSON body. -/
structure Resp where
  status : Nat
  body : J
deriving Repr

/-- A request payload: an ordered field-name/value map (a JSON object of
strings, absent keys simply missing from the list). -/
abbrev Payload := List (String × String)

/-- Python `dict.get`: the value under the first matching key, if any. -/
def Payload.get (data : Payload) (key : String) : Option String :=
  (data.find? (fun p => p.1 == key)).map (fun p => p.2)

/-- Python `dict.__setitem__` for an ordered map: replace the binding under
the first matching key, or append the binding. -/
def Payload.set (data : Payload) (key value : String) : Payload :=
  match data with
  | [] => [(key, value)]
  | p :: rest =>
      if p.1 == key then (key, value) :: rest
      else p :: Payload.set rest key value

/-- Split a character list on a separator character (the pieces between the
occurrences, in order, empty pieces kept). -/
def splitChars (c : Char) : List Char → List (List Char)
  | [] => [[]]
  | a :: as =>
      match splitChars c as with
      | [] => if a == c then [[], []] else [[a]]
      | r :: rs => if a == c then [] :: r :: rs else (a :: r) :: rs

/-- Abstraction of the email format validator of the framework (an excluded
external collaborator; no claim depends on the exact format rule): require
exactly one `@` with nonempty local part and domain.  The failure message is
the configured `invalid` message of the serializer. -/
def email_format_ok (s : String) : Bool :=
  match splitChars '@' s.data with
  | [l, d] => !l.isEmpty && !d.isEmpty
  | _ => false

/-- The combined per-field check run on a supplied email value: the
framework format validator, then `UserSerializer.validate_email`. -/
def email_field_check (v : String) : Except String String :=
  if !email_format_ok v then .error "Enter a valid email address."
  else validate_email v

/-- A writable serializer field as `UserSerializer.Meta` declares it: its
name, whether it is required (derived by the framework from the model:
`blank=True, null=True` columns — `salutation`, `occupation`, `email` — are
NOT required, the configured `Email is required.` message notwithstanding),
the `required` error message (`extra_kwargs`, default framework message
otherwise), and the validation run on a supplied value
(`validate_<field>` hooks). -/
structure FieldSpec where
  name : String
  required : Bool
  requiredMessage : String
  check : String → Except String String

/-- The writable fields of `UserSerializer` in declaration order (`id` and
`date_joined` are `read_only_fields`; `password` is not in `fields` at
all). -/
def writableFields : List FieldSpec :=
  [ ⟨"salutation", false, "This field is required.", .ok⟩
  , ⟨"first_name", true, "First name is required.", .ok⟩
  , ⟨"last_name", true, "Last name is required.", .ok⟩
  , ⟨"occupation", false, "This field is required.", .ok⟩
  , ⟨"phone_number", true, "Phone number is required.", validate_phone_number⟩
  , ⟨"country_code", true, "Country code is required.", .ok⟩
  , ⟨"email", false, "Email is required.", email_field_check⟩ ]

/-- The serializer errors dict: field name to list of messages, in field
order. -/
abbrev Errors := List (String × List String)

/-- The failures one field contributes to the errors dict: a missing field
errs when required (unless `allowMissing`, the partial-update mode), a
supplied field errs when its checks fail. -/
def fieldErrors (allowMissing : Bool) (data : Payload) (fs : FieldSpec) :
    Errors :=
  match data.get fs.name with
  | none =>
      if !allowMissing && fs.required then [(fs.name, [fs.requiredMessage])]
      else []
  | some v =>
      match fs.check v with
      | .error m => [(fs.name, [m])]
      | .ok _ => []

/-- All per-field failures, collected in one pass over the declared
writable fields (the serializer surfaces every failing field, not only the
first). -/
def collect_errors (allowMissing : Bool) (data : Payload) : Errors :=
  (writableFields.map (fieldErrors allowMissing data)).flatten

/-- The binding a supplied field whose checks passed contributes to the
validated data. -/
def validatedEntry (data : Payload) (fs : FieldSpec) :
    Option (String × String) :=
  match data.get fs.name with
  | none => none
  | some v =>
      match fs.check v with
      | .ok v' => some (fs.name, v')
      | .error _ => none

/-- The validated data: the supplied fields whose checks passed, with the
checked values. -/
def collect_validated (data : Payload) : Payload :=
  writableFields.filterMap (validatedEntry data)

/-- The `to_internal_value` pass of the framework over the declared writable
fields (`serializer.is_valid()`): all per-field failures in one pass, or the
validated data. -/
def to_internal_value (allowMissing : Bool) (data : Payload) :
    Except Errors Payload :=
  if (collect_errors allowMissing data).isEmpty then
    .ok (collect_validated data)
  else .error (collect_errors allowMissing data)

/-- Creation path of `serializer.save()` on a fresh instance: `User(**validated_data)` with
the next primary key.  `password` is not a serializer field, so the user row
keeps the empty-string column default — the hashed password from the
registration view never reaches the model.  Required fields are always
present in non-partial validated data; `getD ""` only keeps the
function total. -/
def userFromValidated (id : Nat) (now : String) (vd : Payload) : User :=
  { id := id
  , date_joined := now
  , salutation := vd.get "salutation"
  , first_name := (vd.get "first_name").getD ""
  , last_name := (vd.get "last_name").getD ""
  , occupation := vd.get "occupation"
  , phone_number := (vd.get "phone_number").getD ""
  , country_code := (vd.get "country_code").getD ""
  , email := vd.get "email"
  , password := "" }

/-- Update path of `serializer.save()` on an existing instance (partial):
overwrite exactly the supplied fields, keep the rest. -/
def applyPatch (u : User) (vd : Payload) : User :=
  { u with
    salutation := match vd.get "salutation" with
      | some v => some v
      | none => u.salutation
  , first_name := (vd.get "first_name").getD u.first_name
  , last_name := (vd.get "last_name").getD u.last_name
  , occupation := match vd.get "occupation" with
      | some v => some v
      | none => u.occupation
  , phone_number := (vd.get "phone_number").getD u.phone_number
  , country_code := (vd.get "country_code").getD u.country_code
  , email := match vd.get "email" with
      | some v => some v
      | none => u.email }

/-- An optional string column as JSON: `null` when the column is null. -/
def optJ : Option String → J
  | none => J.jnull
  | some v => J.str v

/-- Serialization `UserSerializer(user).data`: the declared `fields`, in order;
`password` is not among them. -/
def serialize_user (u : User) : List (String × J) :=
  [ ("id", J.num u.id)
  , ("salutation", optJ u.salutation)
  , ("first_name", J.str u.first_name)
  , ("last_name", J.str u.last_name)
  , ("occupation", optJ u.occupation)
  , ("phone_number", J.str u.phone_number)
  , ("country_code", J.str u.country_code)
  , ("email", optJ u.email)
  , ("date_joined", J.str u.date_joined) ]

/-- Stand-in for `django.contrib.auth.hashers.make_password`, an excluded
external collaborator; modelled as a tagging of the raw value (the lookup
`data.get("password")` may yield None). -/
def make_password (raw : Option String) : String :=
  "pbkdf2$" ++ raw.getD "None"

/-- Method `UserRegistrationAPIView.format_serializer_errors`: keep only the first
error message for each field.  (The framework never produces an empty
message list for a listed field; `headD ""` keeps the function total.) -/
def format_serializer_errors (errors : Errors) : List (String × String) :=
  errors.map (fun p => (p.1, p.2.headD ""))

set_option linter.unusedVariables false in
/-- Method `UserProfileAPIView.format_serializer_errors`: the Python method fills
`formatted_errors` with the first message per field but has NO return
statement, so the caller receives `None`. -/
def profile_format_serializer_errors (errors : Errors) :
    Option (List (String × String)) :=
  let formatted_errors := errors.map (fun p => (p.1, p.2.headD ""))
  none

/-- Render a field-to-message map as the JSON `details` object. -/
def detailsJ (d : List (String × String)) : J :=
  J.obj (d.map (fun p => (p.1, J.str p.2)))

/-- Render the possibly-None details value of the profile view. -/
def optDetailsJ : Option (List (String × String)) → J
  | none => J.jnull
  | some d => detailsJ d

/-- The persistent state the registration endpoint touches, plus the
request clock for `auto_now_add`. -/
structure RegState where
  users : List User
  directory : Directory
  next_id : Nat
  now : String

/-- The pieces of work the registration handler can perform after the
duplicate check, in the order the code reaches them; used to state that the
duplicate branch returns before any of them. -/
inductive Effect where
  | hash_password
  | run_validators
  | save_user
deriving Repr, DecidableEq

/-- Handler `UserRegistrationAPIView.post`: duplicate-phone check first (returning
400 at once, before hashing or validation); else hash the password into the
data, validate, and on success save the user — which runs the `User.save`
directory hook — answering 201; on validation failure answer 400 with the
first-message-per-field details and change nothing. -/
def registration_post (st : RegState) (data : Payload) :
    Resp × RegState × List Effect :=
  let phone_number := data.get "phone_number"
  if st.users.any (fun u => phone_number == some u.phone_number) then
    ( { status := 400
      , body := J.obj
          [("error", J.str "A user with this phone number already exists.")] }
    , st, [] )
  else
    let data' := data.set "password" (make_password (data.get "password"))
    match to_internal_value false data' with
    | .ok vd =>
        let u := userFromValidated st.next_id st.now vd
        ( { status := 201
          , body := J.obj [("message", J.str "User registered successfully.")] }
        , { st with
            users := st.users ++ [u]
          , directory := u.save st.directory
          , next_id := st.next_id + 1 }
        , [.hash_password, .run_validators, .save_user] )
    | .error errs =>
        ( { status := 400
          , body := J.obj
              [ ("error", J.str "Validation failed.")
              , ("details", detailsJ (format_serializer_errors errs)) ] }
        , st, [.hash_password, .run_validators] )

/-- Handler `UserProfileAPIView.get`: 200 with the serialized profile of the
caller. -/
def profile_get (u : User) : Resp :=
  { status := 200, body := J.obj (serialize_user u) }

/-- Handler `UserProfileAPIView.patch`: validate the supplied subset
(`partial=True`); on success apply it, save (running the directory hook) and
answer 200 with the updated profile; on failure answer 400 with
`details` as produced by the return-less formatter of the view, leaving the
user and the directory untouched.  Returns the response, the row of the
caller, and the directory after the request. -/
def profile_patch (u : User) (dir : Directory) (data : Payload) :
    Resp × User × Directory :=
  match to_internal_value true data with
  | .ok vd =>
      let u' := applyPatch u vd
      ( { status := 200
        , body := J.obj
            [ ("message", J.str "Profile updated successfully.")
            , ("data", J.obj (serialize_user u')) ] }
      , u', u'.save dir )
  | .error errs =>
      ( { status := 400
        , body := J.obj
            [ ("error", J.str "Validation failed.")
            , ("details", optDetailsJ (profile_format_serializer_errors errs)) ] }
      , u, dir )

/-- Reading of the claim wording for the email rule: the domain part of an
address is the text after the last `@`; defined only when some `@` is
present.  Used solely to compare the claimed rule with the code rule. -/
def specEmailDomain (s : String) : Option String :=
  match splitChars '@' s.data with
  | [] => none
  | [_] => none
  | ps => ps.getLast?.map (fun d => String.mk d)

/-- A concrete registered user, used by witnesses and counterexamples. -/
def uA : User :=
  { id := 1
  , salutation := none
  , first_name := "Ana"
  , last_name := "Li"
  , occupation := none
  , phone_number := "15551234567"
  , country_code := "1"
  , email := some "ana@gmail.com"
  , password := ""
  , date_joined := "2026-10-12" }

/-- A concrete directory entry with spam reports and no account link, as a
spam-reporting flow would have created it. -/
def gcPre : GlobalContact :=
  { phone_number := "15551234567"
  , name := "Spam Caller"
  , country_code := "44"
  , is_registered_user := false
  , spam_count := 2
  , total_reports := 3
  , email := none
  , user := none }

/-- An initial empty application state. -/
def emptySt : RegState :=
  { users := [], directory := [], next_id := 1, now := "2026-10-12" }

/-- A state in which uA is already registered (with its mirrored directory
entry). -/
def stOne : RegState :=
  { users := [uA], directory := uA.save [], next_id := 2, now := "2026-10-12" }

/-- A full, valid registration payload. -/
def regPayloadFull : Payload :=
  [ ("salutation", "Dr."), ("first_name", "Ana"), ("last_name", "Li")
  , ("occupation", "Engineer"), ("phone_number", "15551234567")
  , ("country_code", "1"), ("email", "ana@gmail.com"), ("password", "secret") ]

/-- A registration payload that omits only the email field. -/
def regPayloadNoEmail : Payload :=
  [ ("first_name", "Ana"), ("last_name", "Li"), ("phone_number", "15551234567")
  , ("country_code", "1"), ("password", "secret") ]

/-- A registration payload that omits the first-name field. -/
def regPayloadNoFirst : Payload :=
  [ ("last_name", "Li"), ("phone_number", "15550000002")
  , ("country_code", "1"), ("password", "secret") ]

/-- A PATCH body whose one supplied field fails validation. -/
def patchBadPhone : Payload := [("phone_number", "abc")]

/-- The fixed required-field messages of the four fields that are actually
required, keyed by field name. -/
def requiredPairs : List (String × String) :=
  [ ("first_name", "First name is required.")
  , ("last_name", "Last name is required.")
  , ("country_code", "Country code is required.")
  , ("phone_number", "Phone number is required.") ]

/-- C9: the spam-likelihood operation is total on every directory entry — it
returns 0 when the total report count is 0, and otherwise returns the exact
quotient of spam report count by total report count (so the guarded branch,
never a division by zero, produces the value). -/
theorem spam_likelihood_total (gc : GlobalContact) :
    (gc.total_reports = 0 → gc.spam_likelihood = 0) ∧
    (gc.total_reports ≠ 0 →
      gc.spam_likelihood * (gc.total_reports : ℚ) = (gc.spam_count : ℚ)) := by
  constructor
  · intro h
    simp [GlobalContact.spam_likelihood, h]
  · intro h
    have h2 : (gc.total_reports : ℚ) ≠ 0 := Int.cast_ne_zero.mpr h
    simp only [GlobalContact.spam_likelihood, if_neg h]
    exact div_mul_cancel₀ _ h2

/-- Witness for C9 at a contact with 2 spam reports out of 3, and at one
with no reports. -/
theorem spam_likelihood_total_witness :
    (gcPre.total_reports ≠ 0 ∧
      gcPre.spam_likelihood * (gcPre.total_reports : ℚ) = (gcPre.spam_count : ℚ)) ∧
    ((GlobalContact.blank "0").total_reports = 0 ∧
      (GlobalContact.blank "0").spam_likelihood = 0) :=
  ⟨⟨by decide, (spam_likelihood_total gcPre).2 (by decide)⟩,
   ⟨rfl, (spam_likelihood_total (GlobalContact.blank "0")).1 rfl⟩⟩

/-- C10: the phone validator rejects the empty string with the numeric-only
message, even though the empty string trivially contains no non-digit
character (every character of it is a digit, vacuously). -/
theorem validate_phone_number_empty :
    validate_phone_number "" = .error "Phone number must be numeric." ∧
    "".data.all Char.isDigit = true :=
  ⟨rfl, rfl⟩

/-- C6 counterexample: the empty string consists entirely of decimal digits
(vacuously), yet phone validation does not return it unchanged — it fails —
so the "if and only if" of the claim is false at the input "". -/
theorem validate_phone_number_iff_cex :
    "".data.all Char.isDigit = true ∧
    validate_phone_number "" ≠ .ok "" :=
  ⟨rfl, by decide⟩

/-- C6 amended: phone validation fails with "Phone number must be numeric."
iff the string is empty or contains a character that is not a decimal digit,
and every nonempty all-digit string is returned unchanged.  (The source
check is value.isdigit(), which is False for the empty string.) -/
theorem validate_phone_number_spec (s : String) :
    (validate_phone_number s = .error "Phone number must be numeric." ↔
      (s.data = [] ∨ ∃ c ∈ s.data, ¬(c.isDigit = true))) ∧
    ((s.data ≠ [] ∧ ∀ c ∈ s.data, c.isDigit = true) →
      validate_phone_number s = .ok s) := by
  have hchar : str_isdigit s = true ↔
      (s.data ≠ [] ∧ ∀ c ∈ s.data, c.isDigit = true) := by
    simp [str_isdigit, List.all_eq_true, List.isEmpty_eq_false]
  by_cases h : str_isdigit s
  · obtain ⟨hne, hall⟩ := hchar.mp h
    have hv : validate_phone_number s = .ok s := by
      simp [validate_phone_number, h]
    rw [hv]
    refine ⟨⟨fun hc => absurd hc (by simp), fun hc => ?_⟩, fun _ => rfl⟩
    rcases hc with hc | ⟨c, hc, hcd⟩
    · exact absurd hc hne
    · exact absurd (hall c hc) hcd
  · have hd : s.data = [] ∨ ∃ c ∈ s.data, ¬(c.isDigit = true) := by
      by_contra hc
      push_neg at hc
      exact h (hchar.mpr ⟨hc.1, hc.2⟩)
    have hv : validate_phone_number s =
        .error "Phone number must be numeric." := by
      simp only [validate_phone_number]
      rw [if_pos]
      simp [Bool.not_eq_true] at h ⊢
      exact h
    rw [hv]
    refine ⟨⟨fun _ => hd, fun _ => rfl⟩, ?_⟩
    rintro ⟨hne, hall⟩
    rcases hd with hd | hd
    · exact absurd hd hne
    · obtain ⟨c, hc, hcd⟩ := hd
      exact absurd (hall c hc) hcd

/-- Witness for C6 (amended) at the all-digit string "15551234567". -/
theorem validate_phone_number_spec_witness :
    validate_phone_number "15551234567" = .ok "15551234567" :=
  (validate_phone_number_spec "15551234567").2 ⟨by decide, by decide⟩

/-- C5 counterexample: the domain part of "a@example.com.org" is
"example.com.org", not the sentinel "example.com", yet the email validator
rejects the address — the source tests substring containment, not
domain equality — so the "if and only if" of the claim is false there. -/
theorem validate_email_domain_cex :
    specEmailDomain "a@example.com.org" = some "example.com.org" ∧
    specEmailDomain "a@example.com.org" ≠ some "example.com" ∧
    validate_email "a@example.com.org" =
      .error "Email addresses from example.com are not allowed." :=
  ⟨by decide, by decide, by decide⟩

/-- C5 amended: email validation fails with the blocklist message iff the
value contains the substring "@example.com" anywhere (so in particular every
address whose domain is exactly example.com fails, but so do some addresses
with other domains), and values without that substring pass unchanged. -/
theorem validate_email_spec (v : String) :
    (validate_email v =
        .error "Email addresses from example.com are not allowed." ↔
      str_contains v "@example.com" = true) ∧
    (str_contains v "@example.com" = false → validate_email v = .ok v) := by
  by_cases h : str_contains v "@example.com"
  · constructor
    · simp [validate_email, h]
    · intro hc
      exact absurd h (by simp [hc])
  · constructor
    · simp [validate_email, h]
    · intro _
      simp [validate_email, h]

/-- Witness for C5 (amended) at a blocked and at a passing address. -/
theorem validate_email_spec_witness :
    validate_email "bo@example.com" =
      .error "Email addresses from example.com are not allowed." ∧
    validate_email "ana@gmail.com" = .ok "ana@gmail.com" :=
  ⟨(validate_email_spec "bo@example.com").1.mpr (by decide),
   (validate_email_spec "ana@gmail.com").2 (by decide)⟩

/-- C1 counterexample: saving the account uA against an empty directory
creates one entry, but its back-reference link is null rather than a link to
the account — the defaults dict of the get_or_create call never sets the
user column. -/
theorem user_save_create_link_cex :
    (uA.save []).map GlobalContact.user ≠ [some uA.id] ∧
    (uA.save []).map GlobalContact.user = [none] :=
  ⟨by decide, by decide⟩

/-- C1 amended: for every save of a User Account whose phone number has no
Contact Directory Entry, the hook appends exactly one new entry with name
equal to first name, a space, and last name, is-registered flag true, and
country code and email copied from the account — but with the
back-reference link left null (the create branch does not set it; only the
update branch links the account). -/
theorem user_save_creates_entry (u : User) (dir : Directory)
    (h : ∀ gc ∈ dir, gc.phone_number ≠ u.phone_number) :
    u.save dir = dir ++
      [{ phone_number := u.phone_number
       , name := u.first_name ++ " " ++ u.last_name
       , country_code := u.country_code
       , is_registered_user := true
       , spam_count := 0
       , total_reports := 0
       , email := u.email
       , user := none }] := by
  have hf : dir.find? (fun gc => gc.phone_number == u.phone_number) = none := by
    rw [List.find?_eq_none]
    intro gc hgc
    simp [h gc hgc]
  unfold User.save
  rw [hf]
  rfl

/-- Witness for C1 (amended): registering uA against an empty directory. -/
theorem user_save_creates_entry_witness :
    uA.save [] = [] ++
      [{ phone_number := uA.phone_number
       , name := uA.first_name ++ " " ++ uA.last_name
       , country_code := uA.country_code
       , is_registered_user := true
       , spam_count := 0
       , total_reports := 0
       , email := uA.email
       , user := none }] :=
  user_save_creates_entry uA [] (by intro gc hgc; cases hgc)

/-- C2: for every save of a User Account whose phone number already has a
directory entry, the hook rewrites exactly the matching entries — name,
is-registered flag, country code, email and account link set from the
account — while the spam and total report counters of every entry, and every
non-matching entry entirely, are unchanged, and no entry is added or
removed. -/
theorem user_save_updates_entry (u : User) (dir : Directory)
    (h : ∃ gc ∈ dir, gc.phone_number = u.phone_number) :
    u.save dir = dir.map (fun gc =>
        if gc.phone_number == u.phone_number then
          { gc with
            name := u.first_name ++ " " ++ u.last_name
          , is_registered_user := true
          , country_code := u.country_code
          , email := u.email
          , user := some u.id }
        else gc) ∧
    (u.save dir).length = dir.length ∧
    (∀ (i : ℕ) (hi : i < dir.length) (hi2 : i < (u.save dir).length),
      (u.save dir)[i].spam_count = dir[i].spam_count ∧
      (u.save dir)[i].total_reports = dir[i].total_reports ∧
      (dir[i].phone_number ≠ u.phone_number → (u.save dir)[i] = dir[i])) := by
  obtain ⟨gc0, hmem, heq⟩ := h
  have hf : (dir.find? (fun gc => gc.phone_number == u.phone_number)).isSome := by
    rw [List.find?_isSome]
    exact ⟨gc0, hmem, by simp [heq]⟩
  obtain ⟨g, hg⟩ := Option.isSome_iff_exists.mp hf
  have hmap : u.save dir = dir.map (fun gc =>
      if gc.phone_number == u.phone_number then
        { gc with
          name := u.first_name ++ " " ++ u.last_name
        , is_registered_user := true
        , country_code := u.country_code
        , email := u.email
        , user := some u.id }
      else gc) := by
    unfold User.save
    rw [hg]
  refine ⟨hmap, by rw [hmap, List.length_map], ?_⟩
  intro i hi hi2
  have hgi : (u.save dir)[i] =
      (fun gc =>
        if gc.phone_number == u.phone_number then
          { gc with
            name := u.first_name ++ " " ++ u.last_name
          , is_registered_user := true
          , country_code := u.country_code
          , email := u.email
          , user := some u.id }
        else gc) (dir[i]) := by
    simp only [hmap, List.getElem_map]
  rw [hgi]
  by_cases hb : dir[i].phone_number = u.phone_number
  · simp [hb]
  · simp [hb]

/-- Witness for C2: saving uA when the directory already holds gcPre, a
spam-report-created entry with the same phone number, 2 spam reports out of
3 — the counters survive and the row count stays 1. -/
theorem user_save_updates_entry_witness :
    (uA.save [gcPre]).map GlobalContact.spam_count = [gcPre.spam_count] ∧
    (uA.save [gcPre]).map GlobalContact.total_reports = [gcPre.total_reports] ∧
    (uA.save [gcPre]).length = [gcPre].length := by
  have H := user_save_updates_entry uA [gcPre] ⟨gcPre, by simp, rfl⟩
  exact ⟨by decide, by decide, H.2.1⟩

/-- C3 (code bug): on the PATCH body with phone_number "abc" the supplied
field fails validation and the caller account and directory are left
unmodified, but the 400 response carries details = null instead of the
field-to-first-message map: the profile-view formatter builds the map and
then falls off the end without a return statement (its docstring promises a
dict), while the registration-side formatter applied to the same serializer
errors produces exactly the map the claim describes. -/
theorem profile_patch_details_null :
    profile_patch uA [] patchBadPhone =
      ( { status := 400
        , body := J.obj
            [ ("error", J.str "Validation failed.")
            , ("details", J.jnull) ] }
      , uA, ([] : Directory) ) ∧
    profile_format_serializer_errors (collect_errors true patchBadPhone) =
      none ∧
    format_serializer_errors (collect_errors true patchBadPhone) =
      [("phone_number", "Phone number must be numeric.")] :=
  ⟨rfl, rfl, by decide⟩

/-- C4: when some existing account owns the supplied phone number,
registration answers 400 with the duplicate-phone body, leaves the whole
state unchanged (no account is created), and performs none of the later
work: the effect trace is empty — no password hashing, no validation, no
save. -/
theorem registration_duplicate_phone (st : RegState) (data : Payload)
    (p : String) (hp : data.get "phone_number" = some p)
    (hdup : ∃ u ∈ st.users, u.phone_number = p) :
    registration_post st data =
      ( { status := 400
        , body := J.obj
            [("error", J.str "A user with this phone number already exists.")] }
      , st, ([] : List Effect) ) := by
  obtain ⟨u, hu, hup⟩ := hdup
  have hany : st.users.any
      (fun v => data.get "phone_number" == some v.phone_number) = true := by
    rw [List.any_eq_true]
    exact ⟨u, hu, by simp [hp, hup]⟩
  simp only [registration_post, hany]
  rfl

/-- Witness for C4: a second registration with the phone number of uA
against the one-user state. -/
theorem registration_duplicate_phone_witness :
    registration_post stOne [("phone_number", "15551234567"), ("password", "x")] =
      ( { status := 400
        , body := J.obj
            [("error", J.str "A user with this phone number already exists.")] }
      , stOne, ([] : List Effect) ) :=
  registration_duplicate_phone stOne
    [("phone_number", "15551234567"), ("password", "x")] "15551234567" rfl
    ⟨uA, by simp [stOne], rfl⟩

/-- Setting one key of a payload leaves every other key unchanged. -/
lemma Payload.get_set_ne (data : Payload) (k k2 v : String) (h : k2 ≠ k) :
    (data.set k v).get k2 = data.get k2 := by
  induction data with
  | nil =>
      have hne : (k == k2) = false := by
        simp only [beq_eq_false_iff_ne]
        exact fun he => h he.symm
      simp [Payload.set, Payload.get, List.find?, hne]
  | cons p rest ih =>
      by_cases hp : p.1 == k
      · have hne : ¬(k == k2) := by
          simp only [beq_iff_eq]
          exact fun he => h he.symm
        have hne2 : ¬(p.1 == k2) = true := by
          simp only [beq_iff_eq] at hp ⊢
          rw [hp]
          exact fun he => h he.symm
        simp [Payload.set, hp, Payload.get, List.find?_cons, hne, hne2]
      · by_cases hp2 : p.1 == k2
        · simp [Payload.set, hp, Payload.get, List.find?_cons, hp2]
        · simpa [Payload.set, hp, Payload.get, List.find?_cons, hp2] using ih

/-- A required field absent from the data contributes its required-message
error to the collected serializer errors. -/
lemma mem_collect_errors_of_required_absent (data : Payload) (fs : FieldSpec)
    (hfs : fs ∈ writableFields) (hreq : fs.required = true)
    (habs : data.get fs.name = none) :
    (fs.name, [fs.requiredMessage]) ∈ collect_errors false data := by
  unfold collect_errors
  rw [List.mem_flatten]
  refine ⟨fieldErrors false data fs, List.mem_map_of_mem _ hfs, ?_⟩
  simp [fieldErrors, habs, hreq]

/-- When some field failed, validation reports exactly the collected
errors. -/
lemma to_internal_value_error (am : Bool) (data : Payload)
    (h : collect_errors am data ≠ []) :
    to_internal_value am data = .error (collect_errors am data) := by
  unfold to_internal_value
  rw [if_neg]
  simpa using h

/-- The shape of the registration response when the duplicate check passes
but validation fails. -/
lemma registration_post_validation_error (st : RegState) (data : Payload)
    (hany : st.users.any
      (fun u => data.get "phone_number" == some u.phone_number) = false)
    (herr : collect_errors false
      (data.set "password" (make_password (data.get "password"))) ≠ []) :
    registration_post st data =
      ( { status := 400
        , body := J.obj
            [ ("error", J.str "Validation failed.")
            , ("details", detailsJ (format_serializer_errors (collect_errors
                false (data.set "password"
                  (make_password (data.get "password")))))) ] }
      , st, [.hash_password, .run_validators] ) := by
  simp only [registration_post, hany]
  rw [to_internal_value_error _ _ herr]
  rfl

/-- C7 counterexample: the registration payload that omits only the email
field — one of the fields the claim lists as required — passes validation
and creates the account (status 201, one user): the email column is
nullable and blank-allowed on the model, so the framework derives
required = False for it and the configured "Email is required." message can
never fire. -/
theorem registration_email_absent_ok_cex :
    (registration_post emptySt regPayloadNoEmail).1.status = 201 ∧
    (registration_post emptySt regPayloadNoEmail).2.1.users.length = 1 :=
  ⟨rfl, rfl⟩

/-- C7 amended: the required fields are first name, last name, country code
and phone number; for every registration payload in which one of these is
absent (and whose phone value is not a duplicate, which is checked first),
validation fails, the response has status 400 with a details map listing
that field with its fixed required-field message, and no User Account is
created.  Email is not among the required fields: its absence passes, as
the counterexample shows. -/
theorem registration_missing_required_field (st : RegState) (data : Payload)
    (f m : String) (hf : (f, m) ∈ requiredPairs)
    (habs : data.get f = none)
    (hnodup : ∀ u ∈ st.users, data.get "phone_number" ≠ some u.phone_number) :
    (registration_post st data).1.status = 400 ∧
    (registration_post st data).2.1 = st ∧
    ∃ d, (registration_post st data).1.body =
        J.obj [("error", J.str "Validation failed."), ("details", detailsJ d)] ∧
      (f, m) ∈ d := by
  have hany : st.users.any
      (fun u => data.get "phone_number" == some u.phone_number) = false := by
    rw [List.any_eq_false]
    intro u hu
    simpa using hnodup u hu
  have hfs : ∃ fs ∈ writableFields,
      fs.name = f ∧ fs.required = true ∧ fs.requiredMessage = m := by
    simp only [requiredPairs, List.mem_cons, List.not_mem_nil, or_false,
      Prod.mk.injEq] at hf
    rcases hf with ⟨rfl, rfl⟩ | ⟨rfl, rfl⟩ | ⟨rfl, rfl⟩ | ⟨rfl, rfl⟩
    · exact ⟨⟨"first_name", true, "First name is required.", .ok⟩,
        by simp [writableFields], rfl, rfl, rfl⟩
    · exact ⟨⟨"last_name", true, "Last name is required.", .ok⟩,
        by simp [writableFields], rfl, rfl, rfl⟩
    · exact ⟨⟨"country_code", true, "Country code is required.", .ok⟩,
        by simp [writableFields], rfl, rfl, rfl⟩
    · exact ⟨⟨"phone_number", true, "Phone number is required.",
          validate_phone_number⟩,
        by simp [writableFields], rfl, rfl, rfl⟩
  obtain ⟨fs, hmemW, hname, hreq, hmsg⟩ := hfs
  have hfne : f ≠ "password" := by
    simp only [requiredPairs, List.mem_cons, List.not_mem_nil, or_false,
      Prod.mk.injEq] at hf
    rcases hf with ⟨rfl, -⟩ | ⟨rfl, -⟩ | ⟨rfl, -⟩ | ⟨rfl, -⟩ <;> decide
  have habs2 : (data.set "password"
      (make_password (data.get "password"))).get fs.name = none := by
    rw [hname, Payload.get_set_ne _ _ _ _ hfne]
    exact habs
  have hmemE : (fs.name, [fs.requiredMessage]) ∈ collect_errors false
      (data.set "password" (make_password (data.get "password"))) :=
    mem_collect_errors_of_required_absent _ fs hmemW hreq habs2
  have herr : collect_errors false
      (data.set "password" (make_password (data.get "password"))) ≠ [] :=
    List.ne_nil_of_mem hmemE
  have hpost := registration_post_validation_error st data hany herr
  rw [hpost]
  refine ⟨rfl, rfl, format_serializer_errors (collect_errors false
      (data.set "password" (make_password (data.get "password")))), rfl, ?_⟩
  unfold format_serializer_errors
  have hx := List.mem_map_of_mem
    (fun p : String × List String => (p.1, p.2.headD "")) hmemE
  simpa [hname, hmsg] using hx

/-- Witness for C7 (amended): registering with the payload that omits the
first-name field against the empty state. -/
theorem registration_missing_required_field_witness :
    (registration_post emptySt regPayloadNoFirst).1.status = 400 ∧
    (registration_post emptySt regPayloadNoFirst).2.1 = emptySt ∧
    ("first_name", "First name is required.") ∈
      format_serializer_errors (collect_errors false
        (regPayloadNoFirst.set "password"
          (make_password (regPayloadNoFirst.get "password")))) := by
  obtain ⟨h1, h2, d, hd, hmem⟩ :=
    registration_missing_required_field emptySt regPayloadNoFirst
      "first_name" "First name is required." (by simp [requiredPairs]) rfl
      (by intro u hu; simp [emptySt] at hu)
  exact ⟨h1, h2, by decide⟩

/-- Every declared field check returns the value it was given when it
succeeds. -/
lemma check_preserves (fs : FieldSpec) (hfs : fs ∈ writableFields)
    (v w : String) (h : fs.check v = .ok w) : w = v := by
  have hcases : fs.check = Except.ok ∨ fs.check = validate_phone_number ∨
      fs.check = email_field_check := by
    simp only [writableFields, List.mem_cons, List.not_mem_nil, or_false] at hfs
    rcases hfs with rfl|rfl|rfl|rfl|rfl|rfl|rfl <;> simp
  rcases hcases with hc|hc|hc <;> rw [hc] at h
  · exact (Except.ok.inj h).symm
  · unfold validate_phone_number at h
    split at h
    · cases h
    · exact (Except.ok.inj h).symm
  · unfold email_field_check validate_email at h
    split at h
    · cases h
    · split at h
      · cases h
      · exact (Except.ok.inj h).symm

/-- When the collected errors are empty no single field contributed any. -/
lemma fieldErrors_nil_of_collect_nil (am : Bool) (data : Payload)
    (fs : FieldSpec) (hfs : fs ∈ writableFields)
    (h : collect_errors am data = []) : fieldErrors am data fs = [] := by
  unfold collect_errors at h
  rw [List.flatten_eq_nil_iff] at h
  exact h _ (List.mem_map_of_mem _ hfs)

/-- In an error-free pass every supplied declared field passed its check
with its value unchanged. -/
lemma check_ok_of_no_errors (am : Bool) (data : Payload) (fs : FieldSpec)
    (hfs : fs ∈ writableFields) (v : String) (hv : data.get fs.name = some v)
    (h : collect_errors am data = []) : fs.check v = .ok v := by
  have hfe := fieldErrors_nil_of_collect_nil am data fs hfs h
  have hred : fieldErrors am data fs =
      (match fs.check v with
       | .error m => [(fs.name, [m])]
       | .ok _ => []) := by
    unfold fieldErrors
    rw [hv]
  rw [hred] at hfe
  cases hc : fs.check v with
  | error m => rw [hc] at hfe; simp at hfe
  | ok w => exact congrArg Except.ok (check_preserves fs hfs v w hc)

/-- Looking a key up in the filterMap of a name-distinct field list finds
the pair produced by the matching field. -/
lemma find_filterMap_key (L : List FieldSpec)
    (g : FieldSpec → Option (String × String))
    (hg : ∀ fs p, g fs = some p → p.1 = fs.name)
    (hnd : (L.map FieldSpec.name).Nodup)
    (fs : FieldSpec) (hmem : fs ∈ L) (w : String)
    (hfs : g fs = some (fs.name, w)) :
    (L.filterMap g).find? (fun p => p.1 == fs.name) = some (fs.name, w) := by
  induction L with
  | nil => cases hmem
  | cons a as ih =>
      rw [List.filterMap_cons]
      rcases List.mem_cons.mp hmem with rfl | hmem2
      · rw [hfs]
        rw [List.find?_cons_of_pos]
        simp
      · have hnd1 : a.name ∉ as.map FieldSpec.name :=
          (List.nodup_cons.mp (by simpa using hnd)).1
        have hnd2 : (as.map FieldSpec.name).Nodup :=
          (List.nodup_cons.mp (by simpa using hnd)).2
        have hne : a.name ≠ fs.name := by
          intro he
          exact hnd1 (he ▸ List.mem_map_of_mem _ hmem2)
        cases hga : g a with
        | none => exact ih hnd2 hmem2
        | some q =>
            rw [List.find?_cons_of_neg]
            · exact ih hnd2 hmem2
            · have hq := hg a q hga
              simp [hq, hne]

/-- The validated data of an error-free pass maps each supplied field name
to its supplied value. -/
lemma collect_validated_get (data : Payload) (fs : FieldSpec)
    (hfs : fs ∈ writableFields) (v : String) (hv : data.get fs.name = some v)
    (hok : fs.check v = .ok v) :
    (collect_validated data).get fs.name = some v := by
  have hfind := find_filterMap_key writableFields (validatedEntry data)
    (by
      intro fs2 q hq
      unfold validatedEntry at hq
      split at hq
      · cases hq
      · split at hq
        · cases Option.some.inj hq
          rfl
        · cases hq)
    (by decide)
    fs hfs v
    (by simp only [validatedEntry, hv, hok])
  unfold collect_validated Payload.get
  rw [hfind]
  rfl

/-- The shape of the registration response when the duplicate check passes
and validation succeeds. -/
lemma registration_post_ok (st : RegState) (data : Payload)
    (hany : st.users.any
      (fun u => data.get "phone_number" == some u.phone_number) = false)
    (hnoerr : collect_errors false
      (data.set "password" (make_password (data.get "password"))) = []) :
    registration_post st data =
      ( { status := 201
        , body := J.obj [("message", J.str "User registered successfully.")] }
      , { st with
          users := st.users ++ [userFromValidated st.next_id st.now
            (collect_validated (data.set "password"
              (make_password (data.get "password"))))]
        , directory := (userFromValidated st.next_id st.now
            (collect_validated (data.set "password"
              (make_password (data.get "password"))))).save st.directory
        , next_id := st.next_id + 1 }
      , [.hash_password, .run_validators, .save_user] ) := by
  have htiv : to_internal_value false
      (data.set "password" (make_password (data.get "password"))) =
      .ok (collect_validated (data.set "password"
        (make_password (data.get "password")))) := by
    simp [to_internal_value, hnoerr]
  simp only [registration_post, hany]
  rw [htiv]
  rfl

/-- A 201 registration response forces both a free phone number and an
error-free validation pass. -/
lemma registration_post_201_analysis (st : RegState) (data : Payload)
    (h : (registration_post st data).1.status = 201) :
    st.users.any
      (fun u => data.get "phone_number" == some u.phone_number) = false ∧
    collect_errors false
      (data.set "password" (make_password (data.get "password"))) = [] := by
  by_cases hany : st.users.any
      (fun u => data.get "phone_number" == some u.phone_number) = true
  · simp [registration_post, hany] at h
  · have hany2 : st.users.any
        (fun u => data.get "phone_number" == some u.phone_number) = false := by
      simpa using hany
    refine ⟨hany2, ?_⟩
    by_cases herr : collect_errors false
        (data.set "password" (make_password (data.get "password"))) = []
    · exact herr
    · rw [registration_post_validation_error st data hany2 herr] at h
      simp at h

/-- C8: for every registration that succeeds (status 201), exactly one
account is appended, and serializing that account — which is what the
profile GET returns for it — carries the same salutation, first name, last
name, occupation, phone number, country code and email values supplied at
registration, and no password key at all. -/
theorem registration_profile_round_trip (st : RegState) (data : Payload)
    (hok : (registration_post st data).1.status = 201) :
    ∃ u, (registration_post st data).2.1.users = st.users ++ [u] ∧
      profile_get u = { status := 200, body := J.obj (serialize_user u) } ∧
      "password" ∉ (serialize_user u).map Prod.fst ∧
      (∀ v, data.get "salutation" = some v →
        ("salutation", J.str v) ∈ serialize_user u) ∧
      (∀ v, data.get "first_name" = some v →
        ("first_name", J.str v) ∈ serialize_user u) ∧
      (∀ v, data.get "last_name" = some v →
        ("last_name", J.str v) ∈ serialize_user u) ∧
      (∀ v, data.get "occupation" = some v →
        ("occupation", J.str v) ∈ serialize_user u) ∧
      (∀ v, data.get "phone_number" = some v →
        ("phone_number", J.str v) ∈ serialize_user u) ∧
      (∀ v, data.get "country_code" = some v →
        ("country_code", J.str v) ∈ serialize_user u) ∧
      (∀ v, data.get "email" = some v →
        ("email", J.str v) ∈ serialize_user u) := by
  obtain ⟨hany, hnoerr⟩ := registration_post_201_analysis st data hok
  have hpost := registration_post_ok st data hany hnoerr
  have key : ∀ fs2 : FieldSpec, fs2 ∈ writableFields → fs2.name ≠ "password" →
      ∀ v, data.get fs2.name = some v →
        (collect_validated (data.set "password"
          (make_password (data.get "password")))).get fs2.name = some v := by
    intro fs2 hmemW hne v hv
    have hv2 : (data.set "password"
        (make_password (data.get "password"))).get fs2.name = some v := by
      rw [Payload.get_set_ne data "password" fs2.name
        (make_password (data.get "password")) hne]
      exact hv
    exact collect_validated_get _ fs2 hmemW v hv2
      (check_ok_of_no_errors false _ fs2 hmemW v hv2 hnoerr)
  refine ⟨userFromValidated st.next_id st.now
      (collect_validated (data.set "password"
        (make_password (data.get "password")))),
    by rw [hpost], rfl, by simp [serialize_user], ?_, ?_, ?_, ?_, ?_, ?_, ?_⟩
  · intro v hv
    have h1 := key ⟨"salutation", false, "This field is required.", .ok⟩
      (by simp [writableFields]) (by decide) v hv
    simp [serialize_user, userFromValidated, optJ, h1]
  · intro v hv
    have h1 := key ⟨"first_name", true, "First name is required.", .ok⟩
      (by simp [writableFields]) (by decide) v hv
    simp [serialize_user, userFromValidated, h1]
  · intro v hv
    have h1 := key ⟨"last_name", true, "Last name is required.", .ok⟩
      (by simp [writableFields]) (by decide) v hv
    simp [serialize_user, userFromValidated, h1]
  · intro v hv
    have h1 := key ⟨"occupation", false, "This field is required.", .ok⟩
      (by simp [writableFields]) (by decide) v hv
    simp [serialize_user, userFromValidated, optJ, h1]
  · intro v hv
    have h1 := key ⟨"phone_number", true, "Phone number is required.",
        validate_phone_number⟩
      (by simp [writableFields]) (by decide) v hv
    simp [serialize_user, userFromValidated, h1]
  · intro v hv
    have h1 := key ⟨"country_code", true, "Country code is required.", .ok⟩
      (by simp [writableFields]) (by decide) v hv
    simp [serialize_user, userFromValidated, h1]
  · intro v hv
    have h1 := key ⟨"email", false, "Email is required.", email_field_check⟩
      (by simp [writableFields]) (by decide) v hv
    simp [serialize_user, userFromValidated, optJ, h1]

/-- Witness for C8: the full valid registration of uA against the empty
state, with the serialized profile spelled out. -/
theorem registration_profile_round_trip_witness :
    (registration_post emptySt regPayloadFull).1.status = 201 ∧
    (registration_post emptySt regPayloadFull).2.1.users.length = 1 ∧
    (registration_post emptySt regPayloadFull).2.1.users.map serialize_user =
      [[ ("id", J.num 1), ("salutation", J.str "Dr.")
       , ("first_name", J.str "Ana"), ("last_name", J.str "Li")
       , ("occupation", J.str "Engineer")
       , ("phone_number", J.str "15551234567")
       , ("country_code", J.str "1"), ("email", J.str "ana@gmail.com")
       , ("date_joined", J.str "2026-10-12") ]] := by
  obtain ⟨u, hu, -⟩ :=
    registration_profile_round_trip emptySt regPayloadFull rfl
  refine ⟨rfl, ?_, rfl⟩
  rw [hu]
  simp [emptySt]

end SpamCheck
